import Mathlib

/-!
Verification of the Pokemon MCP battle engine (`src/index.ts`).

The engine is embedded shallowly:
  * numbers that JavaScript treats as floats are modelled as rationals (`ℚ`);
    integer-valued quantities (stats, damage, turn counter) are `ℤ`;
  * `Math.random()`-derived draws (accuracy roll, damage variance, move
    shuffling) are passed in as explicit parameters, constrained to the
    ranges the source produces;
  * the mutable singleton `currentBattle : BattleState | null` becomes an
    `Option BattleState` threaded through the `attack` step function.
-/

namespace PokemonMCP

/-- The eighteen elemental types keying `TYPE_EFFECTIVENESS` in the source. -/
inductive PokemonType
  | normal | fire | water | electric | grass | ice | fighting | poison | ground
  | flying | psychic | bug | rock | ghost | dragon | dark | steel | fairy
  deriving DecidableEq

/-- The `normal` row of `TYPE_EFFECTIVENESS` (absent entries default to 1). -/
def chartNormal : PokemonType → ℚ
  | .rock => 1/2
  | .ghost => 0
  | .steel => 1/2
  | _ => 1

/-- The `fire` row of `TYPE_EFFECTIVENESS` (absent entries default to 1). -/
def chartFire : PokemonType → ℚ
  | .fire => 1/2
  | .water => 1/2
  | .grass => 2
  | .ice => 2
  | .bug => 2
  | .rock => 1/2
  | .dragon => 1/2
  | .steel => 2
  | _ => 1

/-- The `water` row of `TYPE_EFFECTIVENESS` (absent entries default to 1). -/
def chartWater : PokemonType → ℚ
  | .fire => 2
  | .water => 1/2
  | .grass => 1/2
  | .ground => 2
  | .rock => 2
  | .dragon => 1/2
  | _ => 1

/-- The `electric` row of `TYPE_EFFECTIVENESS` (absent entries default to 1). -/
def chartElectric : PokemonType → ℚ
  | .water => 2
  | .electric => 1/2
  | .grass => 1/2
  | .ground => 0
  | .flying => 2
  | .dragon => 1/2
  | _ => 1

/-- The `grass` row of `TYPE_EFFECTIVENESS` (absent entries default to 1). -/
def chartGrass : PokemonType → ℚ
  | .fire => 1/2
  | .water => 2
  | .grass => 1/2
  | .poison => 1/2
  | .ground => 2
  | .flying => 1/2
  | .bug => 1/2
  | .rock => 2
  | .dragon => 1/2
  | .steel => 1/2
  | _ => 1

/-- The `ice` row of `TYPE_EFFECTIVENESS` (absent entries default to 1). -/
def chartIce : PokemonType → ℚ
  | .fire => 1/2
  | .water => 1/2
  | .grass => 2
  | .ice => 1/2
  | .ground => 2
  | .flying => 2
  | .dragon => 2
  | .steel => 1/2
  | _ => 1

/-- The `fighting` row of `TYPE_EFFECTIVENESS` (absent entries default to 1). -/
def chartFighting : PokemonType → ℚ
  | .normal => 2
  | .ice => 2
  | .poison => 1/2
  | .flying => 1/2
  | .psychic => 1/2
  | .bug => 1/2
  | .rock => 2
  | .ghost => 0
  | .dark => 2
  | .steel => 2
  | .fairy => 1/2
  | _ => 1

/-- The `poison` row of `TYPE_EFFECTIVENESS` (absent entries default to 1). -/
def chartPoison : PokemonType → ℚ
  | .grass => 2
  | .poison => 1/2
  | .ground => 1/2
  | .rock => 1/2
  | .ghost => 1/2
  | .steel => 0
  | .fairy => 2
  | _ => 1

/-- The `ground` row of `TYPE_EFFECTIVENESS` (absent entries default to 1). -/
def chartGround : PokemonType → ℚ
  | .fire => 2
  | .electric => 2
  | .grass => 1/2
  | .poison => 2
  | .flying => 0
  | .bug => 1/2
  | .rock => 2
  | .steel => 2
  | _ => 1

/-- The `flying` row of `TYPE_EFFECTIVENESS` (absent entries default to 1). -/
def chartFlying : PokemonType → ℚ
  | .electric => 1/2
  | .grass => 2
  | .fighting => 2
  | .bug => 2
  | .rock => 1/2
  | .steel => 1/2
  | _ => 1

/-- The `psychic` row of `TYPE_EFFECTIVENESS` (absent entries default to 1). -/
def chartPsychic : PokemonType → ℚ
  | .fighting => 2
  | .poison => 2
  | .psychic => 1/2
  | .dark => 0
  | .steel => 1/2
  | _ => 1

/-- The `bug` row of `TYPE_EFFECTIVENESS` (absent entries default to 1). -/
def chartBug : PokemonType → ℚ
  | .fire => 1/2
  | .grass => 2
  | .fighting => 1/2
  | .poison => 1/2
  | .flying => 1/2
  | .psychic => 2
  | .ghost => 1/2
  | .dark => 2
  | .steel => 1/2
  | .fairy => 1/2
  | _ => 1

/-- The `rock` row of `TYPE_EFFECTIVENESS` (absent entries default to 1). -/
def chartRock : PokemonType → ℚ
  | .fire => 2
  | .ice => 2
  | .fighting => 1/2
  | .ground => 1/2
  | .flying => 2
  | .bug => 2
  | .steel => 1/2
  | _ => 1

/-- The `ghost` row of `TYPE_EFFECTIVENESS` (absent entries default to 1). -/
def chartGhost : PokemonType → ℚ
  | .normal => 0
  | .psychic => 2
  | .ghost => 2
  | .dark => 1/2
  | _ => 1

/-- The `dragon` row of `TYPE_EFFECTIVENESS` (absent entries default to 1). -/
def chartDragon : PokemonType → ℚ
  | .dragon => 2
  | .steel => 1/2
  | .fairy => 0
  | _ => 1

/-- The `dark` row of `TYPE_EFFECTIVENESS` (absent entries default to 1). -/
def chartDark : PokemonType → ℚ
  | .fighting => 1/2
  | .psychic => 2
  | .ghost => 2
  | .dark => 1/2
  | .fairy => 1/2
  | _ => 1

/-- The `steel` row of `TYPE_EFFECTIVENESS` (absent entries default to 1). -/
def chartSteel : PokemonType → ℚ
  | .fire => 1/2
  | .water => 1/2
  | .electric => 1/2
  | .ice => 2
  | .rock => 2
  | .steel => 1/2
  | .fairy => 2
  | _ => 1

/-- The `fairy` row of `TYPE_EFFECTIVENESS` (absent entries default to 1). -/
def chartFairy : PokemonType → ℚ
  | .fire => 1/2
  | .fighting => 2
  | .poison => 1/2
  | .dragon => 2
  | .dark => 2
  | .steel => 1/2
  | _ => 1

/-- The `TYPE_EFFECTIVENESS` chart from the source: first index the
attacking type's row, then look the defending type up in it. -/
def typeEffectiveness : PokemonType → PokemonType → ℚ
  | .normal => chartNormal
  | .fire => chartFire
  | .water => chartWater
  | .electric => chartElectric
  | .grass => chartGrass
  | .ice => chartIce
  | .fighting => chartFighting
  | .poison => chartPoison
  | .ground => chartGround
  | .flying => chartFlying
  | .psychic => chartPsychic
  | .bug => chartBug
  | .rock => chartRock
  | .ghost => chartGhost
  | .dragon => chartDragon
  | .dark => chartDark
  | .steel => chartSteel
  | .fairy => chartFairy

/-- The `PokemonStats` interface from the source. -/
structure PokemonStats where
  level : ℤ
  hp : ℤ
  attack : ℤ
  defense : ℤ
  speed : ℤ
  currentHp : ℤ
  deriving DecidableEq

/-- The `Category` type from the source. -/
inductive Category
  | physical | special
  deriving DecidableEq

/-- The `Move` interface from the source. -/
structure Move where
  name : String
  type : PokemonType
  power : ℤ
  accuracy : ℤ
  category : Category
  deriving DecidableEq

/-- Base attribute quadruple of a species (`baseStats` in the source). -/
structure BaseStats where
  hp : ℤ
  attack : ℤ
  defense : ℤ
  speed : ℤ
  deriving DecidableEq

/-- A `POKEMON_DB` catalog entry (the source's `Pokemon` prior to battle
instantiation: the optional `stats` / `moves` / `status` fields absent). -/
structure Species where
  id : ℤ
  name : String
  types : List PokemonType
  baseStats : BaseStats
  movePool : List String
  deriving DecidableEq

/-- A battle-ready combatant (the source's `BattlePokemon`; the `status`
field is constantly `null` in the source and is omitted). -/
structure BattlePokemon where
  id : ℤ
  name : String
  types : List PokemonType
  baseStats : BaseStats
  movePool : List String
  stats : PokemonStats
  moves : List Move
  deriving DecidableEq

/-- The `POKEMON_DB` catalog from the source. -/
def POKEMON_DB : List Species := [
  { id := 1, name := "Bulbasaur", types := [.grass, .poison],
    baseStats := { hp := 45, attack := 49, defense := 49, speed := 45 },
    movePool := ["Vine Whip", "Tackle", "Sludge Bomb", "Ice Beam"] },
  { id := 4, name := "Charmander", types := [.fire],
    baseStats := { hp := 39, attack := 52, defense := 43, speed := 65 },
    movePool := ["Ember", "Flamethrower", "Tackle", "Dragon Claw"] },
  { id := 7, name := "Squirtle", types := [.water],
    baseStats := { hp := 44, attack := 48, defense := 65, speed := 43 },
    movePool := ["Water Gun", "Surf", "Tackle", "Ice Beam"] },
  { id := 25, name := "Pikachu", types := [.electric],
    baseStats := { hp := 35, attack := 55, defense := 40, speed := 90 },
    movePool := ["Thunder Shock", "Thunderbolt", "Tackle", "Surf"] },
  { id := 143, name := "Snorlax", types := [.normal],
    baseStats := { hp := 160, attack := 110, defense := 65, speed := 30 },
    movePool := ["Tackle", "Earthquake", "Ice Beam", "Shadow Ball"] },
  { id := 150, name := "Mewtwo", types := [.psychic],
    baseStats := { hp := 106, attack := 110, defense := 90, speed := 130 },
    movePool := ["Psychic", "Shadow Ball", "Ice Beam", "Flamethrower"] },
  { id := 94, name := "Gengar", types := [.ghost, .poison],
    baseStats := { hp := 60, attack := 65, defense := 60, speed := 110 },
    movePool := ["Shadow Ball", "Sludge Bomb", "Psychic", "Thunderbolt"] },
  { id := 149, name := "Dragonite", types := [.dragon, .flying],
    baseStats := { hp := 91, attack := 134, defense := 95, speed := 80 },
    movePool := ["Dragon Claw", "Flamethrower", "Ice Beam", "Earthquake"] },
  { id := 448, name := "Lucario", types := [.fighting, .steel],
    baseStats := { hp := 70, attack := 110, defense := 70, speed := 90 },
    movePool := ["Close Combat", "Earthquake", "Shadow Ball", "Ice Beam"] },
  { id := 445, name := "Garchomp", types := [.dragon, .ground],
    baseStats := { hp := 108, attack := 130, defense := 95, speed := 102 },
    movePool := ["Dragon Claw", "Earthquake", "Flamethrower", "Shadow Ball"] }]

/-- The `MOVES_DB` catalog from the source. -/
def MOVES_DB : List Move := [
  { name := "Tackle", type := .normal, power := 40, accuracy := 100, category := .physical },
  { name := "Ember", type := .fire, power := 40, accuracy := 100, category := .special },
  { name := "Water Gun", type := .water, power := 40, accuracy := 100, category := .special },
  { name := "Thunder Shock", type := .electric, power := 40, accuracy := 100, category := .special },
  { name := "Vine Whip", type := .grass, power := 45, accuracy := 100, category := .physical },
  { name := "Ice Beam", type := .ice, power := 90, accuracy := 100, category := .special },
  { name := "Earthquake", type := .ground, power := 100, accuracy := 90, category := .physical },
  { name := "Psychic", type := .psychic, power := 90, accuracy := 100, category := .special },
  { name := "Shadow Ball", type := .ghost, power := 80, accuracy := 100, category := .special },
  { name := "Dragon Claw", type := .dragon, power := 80, accuracy := 100, category := .physical },
  { name := "Flamethrower", type := .fire, power := 90, accuracy := 100, category := .special },
  { name := "Surf", type := .water, power := 90, accuracy := 100, category := .special },
  { name := "Thunderbolt", type := .electric, power := 90, accuracy := 100, category := .special },
  { name := "Sludge Bomb", type := .poison, power := 90, accuracy := 100, category := .special },
  { name := "Close Combat", type := .fighting, power := 120, accuracy := 85, category := .physical }]

/-- The source's `calcStat`: `floor((2*base*level)/100 + level + 10)` for HP,
`floor((2*base*level)/100 + 5)` otherwise (JavaScript float division is
modelled exactly in `ℚ`). -/
def calcStat (base level : ℤ) (isHP : Bool) : ℤ :=
  if isHP then ⌊((2 * base * level : ℤ) : ℚ) / 100 + (level : ℚ) + 10⌋
  else ⌊((2 * base * level : ℤ) : ℚ) / 100 + 5⌋

/-- Case-insensitive name comparison: the source compares
`a.toLowerCase() === b.toLowerCase()`; `lowerStr` is char-wise ASCII
lowercasing on the underlying character list. -/
def lowerStr (s : String) : String := ⟨s.data.map Char.toLower⟩

/-- The source's `createBattlePokemon`.  The random shuffle-and-slice of the
move pool is the only nondeterminism; it is modelled by passing the drawn
move list `drawnMoves` in as a parameter (constraints on which lists the
shuffle can produce are imposed at use sites).  `currentHp` is initialised
to the scaled HP, exactly as the source's `stats.currentHp = stats.hp`. -/
def createBattlePokemon (species : Species) (level : ℤ) (drawnMoves : List Move) :
    BattlePokemon :=
  { id := species.id
    name := species.name
    types := species.types
    baseStats := species.baseStats
    movePool := species.movePool
    stats :=
      { level := level
        hp := calcStat species.baseStats.hp level true
        attack := calcStat species.baseStats.attack level false
        defense := calcStat species.baseStats.defense level false
        speed := calcStat species.baseStats.speed level false
        currentHp := calcStat species.baseStats.hp level true }
    moves := drawnMoves }

/-- The `MOVES_DB.filter(m => species.movePool.includes(m.name))` pool a
shuffle draws from: the property a drawn move list must satisfy element-wise. -/
def movesFromPool (species : Species) (ms : List Move) : Prop :=
  ∀ m ∈ ms, m ∈ MOVES_DB ∧ m.name ∈ species.movePool

/-- The effectiveness accumulation loop shared by `calculateDamage` and the
attack handler: `for (const defType of defender.types) effectiveness *= chart[defType]`,
where a chart entry that is `undefined` leaves the accumulator unchanged
(equivalently, multiplies by the default 1 of `typeEffectiveness`). -/
def effProduct (moveType : PokemonType) (defenderTypes : List PokemonType) : ℚ :=
  defenderTypes.foldl (fun acc t => acc * typeEffectiveness moveType t) 1

/-- The source's `calculateDamage`.  `randomFactor` stands for the
`Math.random() * 0.15 + 0.85` draw, passed in explicitly. -/
def calculateDamage (attacker defender : BattlePokemon) (move : Move)
    (randomFactor : ℚ) : ℤ :=
  let level := attacker.stats.level
  let attackStat := attacker.stats.attack
  let defenseStat := defender.stats.defense
  let effectiveness := min (effProduct move.type defender.types) 2
  let stab : ℚ := if move.type ∈ attacker.types then 3/2 else 1
  let baseDamage : ℚ :=
    ((2 * level + 10 : ℤ) : ℚ) / 250 * ((attackStat : ℚ) / (defenseStat : ℚ))
      * (move.power : ℚ) + 2
  ⌊baseDamage * stab * effectiveness * randomFactor / 2⌋

/-- Damage as the specification states it (spec §4.3 plus the claimed
2×-cap and halving policy): `sameType` by membership of the move type in the
attacker's types, `effectiveness` the capped product over the defender's
types of chart lookups (absent pairs defaulting to 1, here the total
function `typeEffectiveness`), floored after the division by 2. -/
def damageSpec (attacker defender : BattlePokemon) (move : Move) (random : ℚ) : ℤ :=
  let base : ℚ :=
    ((2 * attacker.stats.level + 10 : ℤ) : ℚ) / 250
      * ((attacker.stats.attack : ℚ) / (defender.stats.defense : ℚ))
      * (move.power : ℚ) + 2
  let sameType : ℚ := if move.type ∈ attacker.types then 3/2 else 1
  let effectiveness : ℚ := min ((defender.types.map (typeEffectiveness move.type)).prod) 2
  ⌊base * sameType * effectiveness * random / 2⌋

/-- Which of the two combatants of `BattleState` an object reference in the
source points at (`pokemon1` / `pokemon2` are distinct objects, so the
source's `===` comparisons are comparisons of this tag). -/
inductive Side
  | p1 | p2
  deriving DecidableEq

/-- Turn flip: `currentTurn === "pokemon1" ? "pokemon2" : "pokemon1"`. -/
def Side.flip : Side → Side
  | .p1 => .p2
  | .p2 => .p1

/-- The `BattleState` interface from the source. -/
structure BattleState where
  active : Bool
  pokemon1 : BattlePokemon
  pokemon2 : BattlePokemon
  turn : ℤ
  currentTurn : Side
  deriving DecidableEq

/-- Combatant selected by a side tag (`currentBattle[currentBattle.currentTurn]`). -/
def BattleState.get (b : BattleState) : Side → BattlePokemon
  | .p1 => b.pokemon1
  | .p2 => b.pokemon2

/-- Replace the combatant on one side (the in-place mutation of
`defender.stats.currentHp` in the handler). -/
def BattleState.set (b : BattleState) : Side → BattlePokemon → BattleState
  | .p1, p => { b with pokemon1 := p }
  | .p2, p => { b with pokemon2 := p }

/-- The `start_battle` handler's state construction: two fresh combatants,
`turn = 1`, `active = true`, and
`currentTurn = battler1.stats.speed >= battler2.stats.speed ? "pokemon1" : "pokemon2"`.
Random level defaulting and the move shuffle happen before this point and are
supplied as parameters. -/
def startBattle (s1 s2 : Species) (l1 l2 : ℤ) (m1 m2 : List Move) : BattleState :=
  let battler1 := createBattlePokemon s1 l1 m1
  let battler2 := createBattlePokemon s2 l2 m2
  { active := true
    pokemon1 := battler1
    pokemon2 := battler2
    turn := 1
    currentTurn := if battler2.stats.speed ≤ battler1.stats.speed then .p1 else .p2 }

/-- The error taxonomy of the `attack` handler's `throw` sites. -/
inductive AttackError
  | noActiveBattle | notFound | wrongTurn | unknownMove
  deriving DecidableEq

/-- The facts an `attack` call reports: an error, a miss (with the turn
number printed), or a hit carrying attacker side, damage dealt, the
effectiveness multiplier printed in "Combat Details", the STAB flag, and the
winner announcement if the defender fainted. -/
inductive AttackResult
  | error (e : AttackError)
  | missed (turn : ℤ)
  | hit (attacker : Side) (damage : ℤ) (effectiveness : ℚ) (stab : Bool)
      (winner : Option String)
  deriving DecidableEq

/-- True exactly when the call threw. -/
def AttackResult.isError : AttackResult → Bool
  | .error _ => true
  | _ => false

/-- The effectiveness multiplier a hit reports, if the result is a hit. -/
def AttackResult.effQ : AttackResult → Option ℚ
  | .hit _ _ e _ _ => some e
  | _ => none

/-- Attacker resolution:
`[pokemon1, pokemon2].find(p => p.name.toLowerCase() === attacker_name.toLowerCase())` —
the first match wins, so a name carried by both combatants resolves to
`pokemon1`. -/
def findAttacker (b : BattleState) (attackerName : String) : Option Side :=
  if lowerStr b.pokemon1.name = lowerStr attackerName then some .p1
  else if lowerStr b.pokemon2.name = lowerStr attackerName then some .p2
  else none

/-- The body of the `attack` handler once an active battle is in hand:
resolve the attacker (NotFound), enforce turn order (WrongTurn), resolve the
move (UnknownMove), roll accuracy (`accuracyRoll >= move.accuracy` misses and
advances the turn), otherwise apply `calculateDamage`, clamp the defender's
HP at 0, and either end the battle (defender fainted: `active = false`, turn
counter and pointer untouched) or advance the turn.  `accuracyRoll` models
`Math.random() * 100` and `randomFactor` the damage-variance draw. -/
def attackActive (b : BattleState) (attackerName moveName : String)
    (accuracyRoll randomFactor : ℚ) : BattleState × AttackResult :=
  match findAttacker b attackerName with
  | none => (b, .error .notFound)
  | some side =>
    if b.currentTurn ≠ side then (b, .error .wrongTurn)
    else
      let atk := b.get side
      let dfd := b.get side.flip
      match atk.moves.find? (fun m => lowerStr m.name = lowerStr moveName) with
      | none => (b, .error .unknownMove)
      | some move =>
        if (move.accuracy : ℚ) ≤ accuracyRoll then
          ({ b with turn := b.turn + 1, currentTurn := b.currentTurn.flip },
            .missed b.turn)
        else
          let eff := effProduct move.type dfd.types
          let hasStab : Bool := move.type ∈ atk.types
          let damage := calculateDamage atk dfd move randomFactor
          let newHp := max 0 (dfd.stats.currentHp - damage)
          let b1 := b.set side.flip { dfd with stats := { dfd.stats with currentHp := newHp } }
          if newHp = 0 then
            ({ b1 with active := false }, .hit side damage eff hasStab (some atk.name))
          else
            ({ b1 with turn := b.turn + 1, currentTurn := b.currentTurn.flip },
              .hit side damage eff hasStab none)

/-- The full `attack` tool step on the singleton `currentBattle`:
`if (!currentBattle?.active) throw NoActiveBattle` covers both the missing
battle and the ended battle, and a thrown error leaves the state untouched. -/
def attack (battle : Option BattleState) (attackerName moveName : String)
    (accuracyRoll randomFactor : ℚ) : Option BattleState × AttackResult :=
  match battle with
  | none => (none, .error .noActiveBattle)
  | some b =>
    if b.active then
      ((some (attackActive b attackerName moveName accuracyRoll randomFactor).1),
        (attackActive b attackerName moveName accuracyRoll randomFactor).2)
    else (some b, .error .noActiveBattle)

/-- True exactly when the call reported a miss. -/
def AttackResult.isMiss : AttackResult → Bool
  | .missed _ => true
  | _ => false

/-- The `Tackle` row of `MOVES_DB`. -/
def tackle : Move := { name := "Tackle", type := .normal, power := 40, accuracy := 100, category := .physical }

/-- The `Thunder Shock` row of `MOVES_DB`. -/
def thunderShock : Move := { name := "Thunder Shock", type := .electric, power := 40, accuracy := 100, category := .special }

/-- The `Thunderbolt` row of `MOVES_DB`. -/
def thunderbolt : Move := { name := "Thunderbolt", type := .electric, power := 90, accuracy := 100, category := .special }

/-- The `Surf` row of `MOVES_DB`. -/
def surf : Move := { name := "Surf", type := .water, power := 90, accuracy := 100, category := .special }

/-- The `Water Gun` row of `MOVES_DB`. -/
def waterGun : Move := { name := "Water Gun", type := .water, power := 40, accuracy := 100, category := .special }

/-- The `Ice Beam` row of `MOVES_DB`. -/
def iceBeam : Move := { name := "Ice Beam", type := .ice, power := 90, accuracy := 100, category := .special }

/-- The `Vine Whip` row of `MOVES_DB`. -/
def vineWhip : Move := { name := "Vine Whip", type := .grass, power := 45, accuracy := 100, category := .physical }

/-- The `Sludge Bomb` row of `MOVES_DB`. -/
def sludgeBomb : Move := { name := "Sludge Bomb", type := .poison, power := 90, accuracy := 100, category := .special }

/-- The `Earthquake` row of `MOVES_DB`. -/
def earthquake : Move := { name := "Earthquake", type := .ground, power := 100, accuracy := 90, category := .physical }

/-- The `Dragon Claw` row of `MOVES_DB`. -/
def dragonClaw : Move := { name := "Dragon Claw", type := .dragon, power := 80, accuracy := 100, category := .physical }

/-- The `Flamethrower` row of `MOVES_DB`. -/
def flamethrower : Move := { name := "Flamethrower", type := .fire, power := 90, accuracy := 100, category := .special }

/-- The `Psychic` row of `MOVES_DB`. -/
def psychicMove : Move := { name := "Psychic", type := .psychic, power := 90, accuracy := 100, category := .special }

/-- The `Shadow Ball` row of `MOVES_DB`. -/
def shadowBall : Move := { name := "Shadow Ball", type := .ghost, power := 80, accuracy := 100, category := .special }

/-- The Bulbasaur row of `POKEMON_DB`. -/
def bulbasaur : Species :=
  { id := 1, name := "Bulbasaur", types := [.grass, .poison],
    baseStats := { hp := 45, attack := 49, defense := 49, speed := 45 },
    movePool := ["Vine Whip", "Tackle", "Sludge Bomb", "Ice Beam"] }

/-- The Squirtle row of `POKEMON_DB`. -/
def squirtle : Species :=
  { id := 7, name := "Squirtle", types := [.water],
    baseStats := { hp := 44, attack := 48, defense := 65, speed := 43 },
    movePool := ["Water Gun", "Surf", "Tackle", "Ice Beam"] }

/-- The Pikachu row of `POKEMON_DB`. -/
def pikachu : Species :=
  { id := 25, name := "Pikachu", types := [.electric],
    baseStats := { hp := 35, attack := 55, defense := 40, speed := 90 },
    movePool := ["Thunder Shock", "Thunderbolt", "Tackle", "Surf"] }

/-- The Mewtwo row of `POKEMON_DB`. -/
def mewtwo : Species :=
  { id := 150, name := "Mewtwo", types := [.psychic],
    baseStats := { hp := 106, attack := 110, defense := 90, speed := 130 },
    movePool := ["Psychic", "Shadow Ball", "Ice Beam", "Flamethrower"] }

/-- The Dragonite row of `POKEMON_DB`. -/
def dragonite : Species :=
  { id := 149, name := "Dragonite", types := [.dragon, .flying],
    baseStats := { hp := 91, attack := 134, defense := 95, speed := 80 },
    movePool := ["Dragon Claw", "Flamethrower", "Ice Beam", "Earthquake"] }

/-- A full 4-move draw from Pikachu's pool (one order the shuffle can produce). -/
def pikachuMoves : List Move := [thunderShock, thunderbolt, tackle, surf]

/-- A full 4-move draw from Squirtle's pool. -/
def squirtleMoves : List Move := [waterGun, surf, tackle, iceBeam]

/-- A full 4-move draw from Mewtwo's pool. -/
def mewtwoMoves : List Move := [psychicMove, shadowBall, iceBeam, flamethrower]

/-- A full 4-move draw from Dragonite's pool. -/
def dragoniteMoves : List Move := [dragonClaw, flamethrower, iceBeam, earthquake]

/-- A full 4-move draw from Bulbasaur's pool. -/
def bulbasaurMoves : List Move := [vineWhip, tackle, sludgeBomb, iceBeam]

/-- Pikachu instantiated at level 50. -/
def pikachu50B : BattlePokemon := createBattlePokemon pikachu 50 pikachuMoves

/-- Squirtle instantiated at level 50. -/
def squirtle50B : BattlePokemon := createBattlePokemon squirtle 50 squirtleMoves

/-- Pikachu instantiated at level 100. -/
def pikachu100B : BattlePokemon := createBattlePokemon pikachu 100 pikachuMoves

/-- Pikachu instantiated at level 1. -/
def pikachu1B : BattlePokemon := createBattlePokemon pikachu 1 pikachuMoves

/-- Battle: Pikachu (lv 50) vs Squirtle (lv 50). -/
def battlePS : BattleState := startBattle pikachu squirtle 50 50 pikachuMoves squirtleMoves

/-- The state after Pikachu's Thunder Shock hits Squirtle in `battlePS`
(random factor 0.85): 21 damage, turn advanced to Squirtle. -/
def battlePS_afterHit : BattleState :=
  { active := true
    pokemon1 := pikachu50B
    pokemon2 := { squirtle50B with stats := { squirtle50B.stats with currentHp := 83 } }
    turn := 2
    currentTurn := .p2 }

/-- Mirror battle: Pikachu (lv 50) vs Pikachu (lv 50). -/
def mirror50 : BattleState := startBattle pikachu pikachu 50 50 pikachuMoves pikachuMoves

/-- A mirror-match state with the turn pointer on `pokemon2` (what one
Tackle hit on `mirror50` yields). -/
def mirrorTurn2 : BattleState :=
  { active := true
    pokemon1 := pikachu50B
    pokemon2 := { pikachu50B with stats := { pikachu50B.stats with currentHp := 85 } }
    turn := 2
    currentTurn := .p2 }

/-- Mirror battle with asymmetric levels: Pikachu (lv 100) vs Pikachu (lv 1). -/
def mirrorHiLo : BattleState := startBattle pikachu pikachu 100 1 pikachuMoves pikachuMoves

/-- The state after the level-100 Pikachu's Surf one-shots the level-1
Pikachu in `mirrorHiLo`: battle over, turn counter and pointer untouched. -/
def mhlAfter : BattleState :=
  { active := false
    pokemon1 := pikachu100B
    pokemon2 := { pikachu1B with stats := { pikachu1B.stats with currentHp := 0 } }
    turn := 1
    currentTurn := .p1 }

/-- Battle: Mewtwo (lv 50) vs Dragonite (lv 50). -/
def battleMD : BattleState := startBattle mewtwo dragonite 50 50 mewtwoMoves dragoniteMoves

/-- Battle: Dragonite (lv 100) vs Bulbasaur (lv 1). -/
def battleDB : BattleState := startBattle dragonite bulbasaur 100 1 dragoniteMoves bulbasaurMoves

/-- The state after Dragonite's Earthquake misses in `battleDB` (accuracy
roll 95 against 90): turn advances, no damage. -/
def dbAfterMiss : BattleState := { battleDB with turn := 2, currentTurn := .p2 }

/-- The per-combatant facts the battle invariant carries: positive level,
attack and defense (needed for non-negative damage), health within bounds,
and only catalog moves (hence non-negative power). -/
def goodMon (p : BattlePokemon) : Prop :=
  1 ≤ p.stats.level ∧ 1 ≤ p.stats.attack ∧ 1 ≤ p.stats.defense ∧
  0 ≤ p.stats.currentHp ∧ p.stats.currentHp ≤ p.stats.hp ∧
  ∀ m ∈ p.moves, 0 ≤ m.power

/-- Battle-state invariant (trivial when no battle exists). -/
def Inv : Option BattleState → Prop
  | none => True
  | some b => goodMon b.pokemon1 ∧ goodMon b.pokemon2

/-- The battle states the engine can reach: a `start_battle` on two catalog
species with levels ≥ 1 and moves drawn from their pools, followed by any
sequence of `attack` calls whose random draws lie in the ranges
`Math.random() * 100 ∈ [0, 100)` and `Math.random() * 0.15 + 0.85 ∈ [0.85, 1)`. -/
inductive Reachable : Option BattleState → Prop
  | start (s1 s2 : Species) (l1 l2 : ℤ) (m1 m2 : List Move)
      (hs1 : s1 ∈ POKEMON_DB) (hs2 : s2 ∈ POKEMON_DB)
      (hl1 : 1 ≤ l1) (hl2 : 1 ≤ l2)
      (hm1 : movesFromPool s1 m1) (hm2 : movesFromPool s2 m2) :
      Reachable (some (startBattle s1 s2 l1 l2 m1 m2))
  | step (b : Option BattleState) (an mn : String) (ar rf : ℚ)
      (hb : Reachable b) (har0 : 0 ≤ ar) (har1 : ar < 100)
      (hrf0 : 85/100 ≤ rf) (hrf1 : rf < 1) :
      Reachable (attack b an mn ar rf).1

/-- The accumulation loop computes the product of the chart lookups over the
defender's type list. -/
theorem effProduct_eq_prod (moveType : PokemonType) (ts : List PokemonType) :
    effProduct moveType ts = (ts.map (typeEffectiveness moveType)).prod := by
  rw [effProduct, List.prod_eq_foldl, List.foldl_map]

set_option maxHeartbeats 800000 in
/-- Every chart multiplier is non-negative. -/
theorem typeEffectiveness_nonneg (a d : PokemonType) : 0 ≤ typeEffectiveness a d := by
  cases a <;> cases d <;> norm_num [typeEffectiveness, chartNormal, chartFire, chartWater, chartElectric, chartGrass, chartIce, chartFighting, chartPoison, chartGround, chartFlying, chartPsychic, chartBug, chartRock, chartGhost, chartDragon, chartDark, chartSteel, chartFairy]

/-- The effectiveness accumulation loop preserves non-negativity of the
accumulator. -/
theorem effFold_nonneg (mt : PokemonType) (ts : List PokemonType) :
    ∀ acc : ℚ, 0 ≤ acc →
      0 ≤ ts.foldl (fun a t => a * typeEffectiveness mt t) acc := by
  induction ts with
  | nil => intro acc h; simpa using h
  | cons t ts ih =>
    intro acc h
    simp only [List.foldl_cons]
    exact ih _ (mul_nonneg h (typeEffectiveness_nonneg mt t))

/-- The effectiveness product is non-negative. -/
theorem effProduct_nonneg (mt : PokemonType) (ts : List PokemonType) :
    0 ≤ effProduct mt ts :=
  effFold_nonneg mt ts 1 (by norm_num)

/-- Damage is non-negative whenever the attacker's level is positive, stats
are non-negative, the move's power is non-negative and the random factor is
non-negative (all of which the battle invariant provides). -/
theorem calculateDamage_nonneg (a d : BattlePokemon) (move : Move) (rf : ℚ)
    (hl : 1 ≤ a.stats.level) (ha : 0 ≤ a.stats.attack) (hd : 0 ≤ d.stats.defense)
    (hp : 0 ≤ move.power) (hrf : 0 ≤ rf) :
    0 ≤ calculateDamage a d move rf := by
  simp only [calculateDamage]
  rw [Int.le_floor, Int.cast_zero]
  have heff : (0 : ℚ) ≤ min (effProduct move.type d.types) 2 :=
    le_min (effProduct_nonneg _ _) (by norm_num)
  have hstab : (0 : ℚ) ≤ (if move.type ∈ a.types then (3/2 : ℚ) else 1) := by
    split <;> norm_num
  have h1 : (0 : ℚ) ≤ ((2 * a.stats.level + 10 : ℤ) : ℚ) / 250 := by
    apply div_nonneg _ (by norm_num)
    exact_mod_cast (by linarith : (0 : ℤ) ≤ 2 * a.stats.level + 10)
  have h2 : (0 : ℚ) ≤ (a.stats.attack : ℚ) / (d.stats.defense : ℚ) :=
    div_nonneg (by exact_mod_cast ha) (by exact_mod_cast hd)
  have h3 : (0 : ℚ) ≤ (move.power : ℚ) := by exact_mod_cast hp
  have hbase : (0 : ℚ) ≤
      ((2 * a.stats.level + 10 : ℤ) : ℚ) / 250
        * ((a.stats.attack : ℚ) / (d.stats.defense : ℚ)) * (move.power : ℚ) + 2 := by
    have := mul_nonneg (mul_nonneg h1 h2) h3
    linarith
  apply div_nonneg _ (by norm_num)
  exact mul_nonneg (mul_nonneg (mul_nonneg hbase hstab) heff) hrf

/-- C1: for every attacker, defender, assigned move and random draw, the
damage `calculateDamage` deals equals the claimed formula: floor of
`(((2·level+10)/250)·(attack/defense)·power + 2) · sameType · effectiveness
· random / 2`, with `sameType = 1.5` iff the move's type is among the
attacker's types, effectiveness the product of chart lookups over the
defender's types (absent pairs 1) capped at 2, and the halving applied
before the floor. -/
theorem calculateDamage_eq_damageSpec (attacker defender : BattlePokemon)
    (move : Move) (random : ℚ) :
    calculateDamage attacker defender move random =
      damageSpec attacker defender move random := by
  unfold calculateDamage damageSpec
  rw [effProduct_eq_prod]

/-- Positivity of scaled stats: for `base ≥ 1, level ≥ 1` both the HP and
the non-HP scaling are at least 1. -/
theorem calcStat_pos (base level : ℤ) (hb : 1 ≤ base) (hl : 1 ≤ level) :
    1 ≤ calcStat base level false ∧ 1 ≤ calcStat base level true := by
  have hbq : (1 : ℚ) ≤ (base : ℚ) := by exact_mod_cast hb
  have hlq : (1 : ℚ) ≤ (level : ℚ) := by exact_mod_cast hl
  have hprod : (0 : ℚ) ≤ ((2 * base * level : ℤ) : ℚ) / 100 := by
    apply div_nonneg _ (by norm_num)
    push_cast
    nlinarith
  push_cast at hprod
  constructor
  · show (1 : ℤ) ≤ ⌊((2 * base * level : ℤ) : ℚ) / 100 + 5⌋
    rw [Int.le_floor]
    push_cast
    linarith
  · show (1 : ℤ) ≤ ⌊((2 * base * level : ℤ) : ℚ) / 100 + (level : ℚ) + 10⌋
    rw [Int.le_floor]
    push_cast
    linarith

/-- C7: the stat-scaling function returns `floor(2·base·level/100 + 5)` for a
non-health attribute and `floor(2·base·level/100 + level + 10)` for health;
for `base ≥ 1, level ≥ 1` both results are positive (so a scaled defense
stat is never 0), and `scale(45, 50, health) = 105`. -/
theorem calcStat_correct (base level : ℤ) (hb : 1 ≤ base) (hl : 1 ≤ level) :
    calcStat base level false = ⌊((2 * base * level : ℤ) : ℚ) / 100 + 5⌋ ∧
    calcStat base level true = ⌊((2 * base * level : ℤ) : ℚ) / 100 + (level : ℚ) + 10⌋ ∧
    1 ≤ calcStat base level false ∧ 1 ≤ calcStat base level true ∧
    calcStat 45 50 true = 105 :=
  ⟨rfl, rfl, (calcStat_pos base level hb hl).1, (calcStat_pos base level hb hl).2,
    by norm_num [calcStat]⟩

/-- Witness for C7 at `base = 45`, `level = 50`. -/
theorem calcStat_correct_witness :
    calcStat 45 50 false = ⌊((2 * 45 * 50 : ℤ) : ℚ) / 100 + 5⌋ ∧
    calcStat 45 50 true = ⌊((2 * 45 * 50 : ℤ) : ℚ) / 100 + ((50 : ℤ) : ℚ) + 10⌋ ∧
    1 ≤ calcStat 45 50 false ∧ 1 ≤ calcStat 45 50 true ∧
    calcStat 45 50 true = 105 :=
  calcStat_correct 45 50 (by norm_num) (by norm_num)

/-- Helper for error atomicity: inside an active battle, every throwing
branch of the attack handler returns the state unchanged. -/
theorem attackActive_error_state (b : BattleState) (an mn : String) (ar rf : ℚ)
    (e : AttackError) (h : (attackActive b an mn ar rf).2 = .error e) :
    (attackActive b an mn ar rf).1 = b := by
  unfold attackActive at h ⊢
  cases hf : findAttacker b an with
  | none => simp only [hf]
  | some side =>
    simp only [hf] at h ⊢
    by_cases ht : b.currentTurn = side
    · rw [if_neg (not_not_intro ht)] at h ⊢
      cases hm : (b.get side).moves.find? (fun m => lowerStr m.name = lowerStr mn) with
      | none => simp only [hm]
      | some move =>
        simp only [hm] at h ⊢
        by_cases hacc : (move.accuracy : ℚ) ≤ ar
        · rw [if_pos hacc] at h
          simp at h
        · rw [if_neg hacc] at h
          by_cases h0 : max 0 ((b.get side.flip).stats.currentHp
              - calculateDamage (b.get side) (b.get side.flip) move rf) = 0
          · rw [if_pos h0] at h
            simp at h
          · rw [if_neg h0] at h
            simp at h
    · rw [if_pos (Ne.symm ht ∘ Eq.symm)]

/-- C3: every failed attack call — NoActiveBattle, NotFound, WrongTurn or
UnknownMove — leaves the battle state (both combatants, turn counter, turn
pointer, active flag) exactly as it was; in particular the WrongTurn and
UnknownMove checks precede the accuracy roll and any mutation. -/
theorem attack_error_atomic (battle : Option BattleState) (an mn : String)
    (ar rf : ℚ) (e : AttackError)
    (h : (attack battle an mn ar rf).2 = .error e) :
    (attack battle an mn ar rf).1 = battle := by
  cases battle with
  | none => rfl
  | some b =>
    by_cases hact : b.active = true
    · simp only [attack, hact, if_true] at h ⊢
      exact congrArg some (attackActive_error_state b an mn ar rf e h)
    · simp only [attack]
      rw [if_neg hact]

/-- Witness for C3: Squirtle attacking on Pikachu's turn fails (WrongTurn)
and leaves the state unchanged. -/
theorem attack_error_atomic_witness :
    (attack (some battlePS) "Squirtle" "Tackle" 0 (17/20)).1 = some battlePS :=
  attack_error_atomic (some battlePS) "Squirtle" "Tackle" 0 (17/20) .wrongTurn
    (by norm_num +decide [attack, attackActive, findAttacker, battlePS, startBattle,
      createBattlePokemon, calcStat, pikachu, squirtle, lowerStr])

/-- C5: every successful attack call that does not end the battle — hit or
miss — increments the turn counter by exactly one and flips the turn pointer
to the other combatant; a miss additionally changes neither combatant's
health, and is reported as a miss of the pre-call turn (a success, not an
error). -/
theorem attack_nonending_advances (b b' : BattleState) (an mn : String)
    (ar rf : ℚ) (r : AttackResult)
    (h : attack (some b) an mn ar rf = (some b', r))
    (hne : r.isError = false)
    (hact : b'.active = true) :
    b'.turn = b.turn + 1 ∧ b'.currentTurn = b.currentTurn.flip ∧
    (r.isMiss = true →
      b'.pokemon1.stats.currentHp = b.pokemon1.stats.currentHp ∧
      b'.pokemon2.stats.currentHp = b.pokemon2.stats.currentHp ∧
      r = .missed b.turn) := by
  simp only [attack] at h
  by_cases hba : b.active = true
  · rw [if_pos hba, Prod.mk.injEq, Option.some.injEq] at h
    obtain ⟨h1, h2⟩ := h
    subst h1
    subst h2
    unfold attackActive at hne hact ⊢
    cases hf : findAttacker b an with
    | none =>
      simp only [hf] at hne
      simp [AttackResult.isError] at hne
    | some side =>
      simp only [hf] at hne hact ⊢
      by_cases ht : b.currentTurn = side
      · rw [if_neg (not_not_intro ht)] at hne hact ⊢
        cases hm : (b.get side).moves.find? (fun m => lowerStr m.name = lowerStr mn) with
        | none =>
          simp only [hm] at hne
          simp [AttackResult.isError] at hne
        | some move =>
          simp only [hm] at hne hact ⊢
          by_cases hacc : (move.accuracy : ℚ) ≤ ar
          · rw [if_pos hacc] at hne hact ⊢
            exact ⟨rfl, rfl, fun _ => ⟨rfl, rfl, rfl⟩⟩
          · rw [if_neg hacc] at hne hact ⊢
            by_cases h0 : max 0 ((b.get side.flip).stats.currentHp
                - calculateDamage (b.get side) (b.get side.flip) move rf) = 0
            · rw [if_pos h0] at hact
              simp at hact
            · rw [if_neg h0] at hne hact ⊢
              refine ⟨rfl, rfl, fun hmiss => ?_⟩
              simp [AttackResult.isMiss] at hmiss
      · rw [if_pos (Ne.symm ht ∘ Eq.symm)] at hne
        simp [AttackResult.isError] at hne
  · rw [if_neg hba, Prod.mk.injEq, Option.some.injEq] at h
    obtain ⟨h1, h2⟩ := h
    subst h2
    simp [AttackResult.isError] at hne

/-- Witness for C5: Dragonite's Earthquake missing (roll 95 against 90)
advances the turn from 1 to 2, flips the pointer, and changes no health. -/
theorem attack_nonending_advances_witness :
    dbAfterMiss.turn = battleDB.turn + 1 ∧
    dbAfterMiss.currentTurn = battleDB.currentTurn.flip ∧
    (dbAfterMiss.pokemon1.stats.currentHp = battleDB.pokemon1.stats.currentHp ∧
     dbAfterMiss.pokemon2.stats.currentHp = battleDB.pokemon2.stats.currentHp ∧
     (AttackResult.missed 1) = .missed battleDB.turn) := by
  have T := attack_nonending_advances battleDB dbAfterMiss "Dragonite" "Earthquake"
    95 (17/20) (.missed 1)
    (by norm_num +decide [attack, attackActive, findAttacker, battleDB, dbAfterMiss,
      startBattle, createBattlePokemon, calcStat, dragonite, bulbasaur, lowerStr,
      Side.flip, dragoniteMoves, bulbasaurMoves, dragonClaw, flamethrower, iceBeam,
      earthquake])
    (by simp [AttackResult.isError])
    rfl
  exact ⟨T.1, T.2.1, T.2.2 rfl⟩

/-- C4: an attack that brings the defender's health to exactly 0 ends the
battle: the active flag drops, the attacker is announced as winner, the turn
counter and pointer are left untouched, and any subsequent attack call —
whoever makes it, with any rolls — fails with NoActiveBattle (not
WrongTurn) and changes nothing. -/
theorem attack_faint_ends (b b' : BattleState) (an mn an2 mn2 : String)
    (ar rf ar2 rf2 : ℚ) (side : Side) (d : ℤ) (e : ℚ) (st : Bool)
    (w : Option String)
    (h : attack (some b) an mn ar rf = (some b', .hit side d e st w))
    (hhp : (b'.get side.flip).stats.currentHp = 0) :
    b'.active = false ∧ w = some (b.get side).name ∧ b'.turn = b.turn ∧
    b'.currentTurn = b.currentTurn ∧
    attack (some b') an2 mn2 ar2 rf2 = (some b', .error .noActiveBattle) := by
  simp only [attack] at h
  by_cases hba : b.active = true
  · rw [if_pos hba, Prod.mk.injEq, Option.some.injEq] at h
    obtain ⟨h1, h2⟩ := h
    subst h1
    unfold attackActive at h2 hhp ⊢
    cases hf : findAttacker b an with
    | none =>
      simp only [hf] at h2
      simp at h2
    | some side0 =>
      simp only [hf] at h2 hhp ⊢
      by_cases ht : b.currentTurn = side0
      · rw [if_neg (not_not_intro ht)] at h2 hhp ⊢
        cases hm : (b.get side0).moves.find? (fun m => lowerStr m.name = lowerStr mn) with
        | none =>
          simp only [hm] at h2
          simp at h2
        | some move =>
          simp only [hm] at h2 hhp ⊢
          by_cases hacc : (move.accuracy : ℚ) ≤ ar
          · rw [if_pos hacc] at h2
            simp at h2
          · rw [if_neg hacc] at h2 hhp ⊢
            by_cases h0 : max 0 ((b.get side0.flip).stats.currentHp
                - calculateDamage (b.get side0) (b.get side0.flip) move rf) = 0
            · rw [if_pos h0] at h2 hhp ⊢
              rw [AttackResult.hit.injEq] at h2
              obtain ⟨hs, hd, he, hst, hw⟩ := h2
              subst hs
              subst hw
              refine ⟨rfl, rfl, ?_, ?_, ?_⟩
              · cases side0 <;> rfl
              · cases side0 <;> rfl
              · simp [attack]
            · rw [if_neg h0] at h2 hhp ⊢
              rw [AttackResult.hit.injEq] at h2
              obtain ⟨hs, hd, he, hst, hw⟩ := h2
              subst hs
              cases side0 <;>
                simp only [BattleState.get, BattleState.set, Side.flip] at hhp <;>
                exact absurd hhp h0
      · rw [if_pos (Ne.symm ht ∘ Eq.symm)] at h2
        simp at h2
  · rw [if_neg hba, Prod.mk.injEq, Option.some.injEq] at h
    obtain ⟨h1, h2⟩ := h
    simp at h2

/-- Witness for C4: the level-100 Pikachu's Surf one-shots the level-1
Pikachu (739 damage against 11 HP), ending the mirror battle. -/
theorem attack_faint_ends_witness :
    mhlAfter.active = false ∧
    (some "Pikachu" : Option String) = some ((mirrorHiLo.get Side.p1).name) ∧
    mhlAfter.turn = mirrorHiLo.turn ∧
    mhlAfter.currentTurn = mirrorHiLo.currentTurn ∧
    attack (some mhlAfter) "Pikachu" "Surf" 0 (17/20)
      = (some mhlAfter, .error .noActiveBattle) :=
  attack_faint_ends mirrorHiLo mhlAfter "Pikachu" "Surf" "Pikachu" "Surf"
    0 (17/20) 0 (17/20) .p1 739 1 false (some "Pikachu")
    (by norm_num +decide [attack, attackActive, findAttacker, mirrorHiLo, mhlAfter,
      pikachu100B, pikachu1B, startBattle, createBattlePokemon, calcStat, pikachu,
      lowerStr, Side.flip, BattleState.get, BattleState.set, calculateDamage,
      effProduct, typeEffectiveness, chartWater, pikachuMoves, thunderShock,
      thunderbolt, tackle, surf])
    (by norm_num [mhlAfter, BattleState.get, Side.flip, pikachu1B,
      createBattlePokemon, calcStat, pikachu])

/-- C8: `start_battle` always selects the strictly faster combatant to act
first, and on an exact speed tie player1 acts first — deterministically, for
all species pairs, levels and move draws. -/
theorem startBattle_first_actor (s1 s2 : Species) (l1 l2 : ℤ) (m1 m2 : List Move) :
    ((startBattle s1 s2 l1 l2 m1 m2).pokemon2.stats.speed
        < (startBattle s1 s2 l1 l2 m1 m2).pokemon1.stats.speed →
      (startBattle s1 s2 l1 l2 m1 m2).currentTurn = Side.p1) ∧
    ((startBattle s1 s2 l1 l2 m1 m2).pokemon1.stats.speed
        < (startBattle s1 s2 l1 l2 m1 m2).pokemon2.stats.speed →
      (startBattle s1 s2 l1 l2 m1 m2).currentTurn = Side.p2) ∧
    ((startBattle s1 s2 l1 l2 m1 m2).pokemon1.stats.speed
        = (startBattle s1 s2 l1 l2 m1 m2).pokemon2.stats.speed →
      (startBattle s1 s2 l1 l2 m1 m2).currentTurn = Side.p1) := by
  unfold startBattle
  dsimp only
  split_ifs with hle
  · exact ⟨fun _ => rfl, fun hlt => absurd hle (not_le.mpr hlt), fun _ => rfl⟩
  · push_neg at hle
    exact ⟨fun hlt => absurd hlt (lt_asymm hle), fun _ => rfl,
      fun heq => absurd (le_of_eq heq.symm) (not_le.mpr hle)⟩

/-- Witness for C8 at an exact speed tie (Pikachu lv 50 vs Pikachu lv 50):
player1 acts first. -/
theorem startBattle_first_actor_witness :
    (startBattle pikachu pikachu 50 50 pikachuMoves pikachuMoves).currentTurn
      = Side.p1 :=
  (startBattle_first_actor pikachu pikachu 50 50 pikachuMoves pikachuMoves).2.2 rfl

/-- C9 (amended): in a battle whose two combatants carry the same name,
attacker resolution can only yield `pokemon1` (the first match) or fail; so
while the turn pointer is on `pokemon2` every attack call errors and leaves
the state unchanged — `pokemon2` can never act.  (The original claim's
further conclusion that a mirror match can never reach the Ended state is
false: `pokemon1` itself can still knock `pokemon2` out, see the
counterexample.) -/
theorem mirror_match_blocked (b : BattleState) (an mn : String) (ar rf : ℚ)
    (hname : b.pokemon1.name = b.pokemon2.name)
    (hturn : b.currentTurn = Side.p2) :
    findAttacker b an
      = (if lowerStr b.pokemon1.name = lowerStr an then some Side.p1 else none) ∧
    (attack (some b) an mn ar rf).1 = some b ∧
    ((attack (some b) an mn ar rf).2).isError = true := by
  have hfa : findAttacker b an
      = (if lowerStr b.pokemon1.name = lowerStr an then some Side.p1 else none) := by
    unfold findAttacker
    rw [← hname]
    by_cases hc : lowerStr b.pokemon1.name = lowerStr an
    · rw [if_pos hc, if_pos hc]
    · rw [if_neg hc, if_neg hc, if_neg hc]
  have hrest : (attack (some b) an mn ar rf).1 = some b ∧
      ((attack (some b) an mn ar rf).2).isError = true := by
    by_cases hba : b.active = true
    · simp only [attack]
      rw [if_pos hba]
      unfold attackActive
      rw [hfa]
      by_cases hc : lowerStr b.pokemon1.name = lowerStr an
      · rw [if_pos hc]
        simp only [hturn]
        rw [if_pos (show Side.p2 ≠ Side.p1 from by decide)]
        exact ⟨rfl, rfl⟩
      · rw [if_neg hc]
        exact ⟨rfl, rfl⟩
    · simp only [attack]
      rw [if_neg hba]
      exact ⟨rfl, rfl⟩
  exact ⟨hfa, hrest.1, hrest.2⟩

/-- Witness for the amended C9 on a concrete mirror state whose pointer is
on `pokemon2`. -/
theorem mirror_match_blocked_witness :
    findAttacker mirrorTurn2 "Pikachu"
      = (if lowerStr mirrorTurn2.pokemon1.name = lowerStr "Pikachu"
          then some Side.p1 else none) ∧
    (attack (some mirrorTurn2) "Pikachu" "Tackle" 0 (17/20)).1 = some mirrorTurn2 ∧
    ((attack (some mirrorTurn2) "Pikachu" "Tackle" 0 (17/20)).2).isError = true :=
  mirror_match_blocked mirrorTurn2 "Pikachu" "Tackle" 0 (17/20) rfl rfl

/-- Counterexample to C9 as stated: a mirror match CAN reach the Ended
state — in Pikachu (lv 100) vs Pikachu (lv 1), the first attack (Surf, 739
damage against 11 HP) ends the battle, `active = false`. -/
theorem mirror_match_ends_counterexample :
    ((attack (some mirrorHiLo) "Pikachu" "Surf" 0 (17/20)).1).map BattleState.active
      = some false := by
  norm_num +decide [attack, attackActive, findAttacker, mirrorHiLo, startBattle,
    createBattlePokemon, calcStat, pikachu, lowerStr, Side.flip, BattleState.get,
    BattleState.set, calculateDamage, effProduct, typeEffectiveness, chartWater,
    pikachuMoves, thunderShock, thunderbolt, tackle, surf]

/-- C2 (amended): for EVERY hit, the effectiveness multiplier the attack
result reports is the UNCAPPED chart product over the defender's types; it
coincides with the multiplier the damage computation actually uses (the
product capped at 2) if and only if that product is at most 2 — so the
report diverges from the multiplier used exactly on dual-type defenders
doubly weak to the move. -/
theorem attack_reports_uncapped_eff (b : BattleState) (an mn : String)
    (ar rf : ℚ) (side : Side) (move : Move)
    (hact : b.active = true)
    (hfind : findAttacker b an = some side)
    (hturn : b.currentTurn = side)
    (hmove : (b.get side).moves.find? (fun m => lowerStr m.name = lowerStr mn)
      = some move)
    (hacc : ar < (move.accuracy : ℚ)) :
    (attack (some b) an mn ar rf).2.effQ
      = some (effProduct move.type ((b.get side.flip).types)) ∧
    ((attack (some b) an mn ar rf).2.effQ
        = some (min (effProduct move.type ((b.get side.flip).types)) 2)
      ↔ effProduct move.type ((b.get side.flip).types) ≤ 2) := by
  have key : (attack (some b) an mn ar rf).2.effQ
      = some (effProduct move.type ((b.get side.flip).types)) := by
    simp only [attack]
    rw [if_pos hact]
    unfold attackActive
    simp only [hfind]
    rw [if_neg (not_not_intro hturn)]
    simp only [hmove]
    rw [if_neg (not_le.mpr hacc)]
    by_cases h0 : max 0 ((b.get side.flip).stats.currentHp
        - calculateDamage (b.get side) (b.get side.flip) move rf) = 0
    · rw [if_pos h0]
      rfl
    · rw [if_neg h0]
      rfl
  refine ⟨key, ?_, fun hle => by rw [key, min_eq_left hle]⟩
  intro hmin
  rw [key, Option.some.injEq] at hmin
  calc effProduct move.type ((b.get side.flip).types)
      = min (effProduct move.type ((b.get side.flip).types)) 2 := hmin
    _ ≤ 2 := min_le_right _ _

/-- Witness for the amended C2 at a dual-weak defender: Ice Beam against
Dragonite (dragon/flying) reports the uncapped 4× product, which differs
from the capped 2× the damage computation uses (the iff's both sides are
false there: 4 ≤ 2 fails). -/
theorem attack_reports_uncapped_eff_witness :
    (attack (some battleMD) "Mewtwo" "Ice Beam" 0 (17/20)).2.effQ
      = some (effProduct iceBeam.type ((battleMD.get Side.p1.flip).types)) ∧
    ((attack (some battleMD) "Mewtwo" "Ice Beam" 0 (17/20)).2.effQ
        = some (min (effProduct iceBeam.type ((battleMD.get Side.p1.flip).types)) 2)
      ↔ effProduct iceBeam.type ((battleMD.get Side.p1.flip).types) ≤ 2) :=
  attack_reports_uncapped_eff battleMD "Mewtwo" "Ice Beam" 0 (17/20)
    Side.p1 iceBeam
    rfl
    (by decide)
    (by norm_num [battleMD, startBattle, createBattlePokemon, calcStat, mewtwo,
      dragonite])
    (by decide)
    (by norm_num [iceBeam])

/-- Counterexample to C2 as stated: Ice Beam against dual-type Dragonite
(dragon/flying) reports a 4× multiplier, but the damage computation uses the
capped 2× — the dealt 40 damage is what 2× yields, while 4× would have
yielded 80. -/
theorem attack_eff_report_counterexample :
    (attack (some battleMD) "Mewtwo" "Ice Beam" 0 (17/20)).2
      = .hit .p1 40 4 false none ∧
    min (effProduct PokemonType.ice [PokemonType.dragon, PokemonType.flying]) 2 = 2 ∧
    ⌊(2377/50 : ℚ) * 1 * 4 * (17/20) / 2⌋ = 80 ∧
    ((40 : ℤ) ≠ 80) ∧ ((4 : ℚ) ≠ 2) := by
  refine ⟨?_, ?_, by norm_num, by norm_num, by norm_num⟩
  · norm_num +decide [attack, attackActive, findAttacker, battleMD, startBattle,
      createBattlePokemon, calcStat, mewtwo, dragonite, lowerStr, Side.flip,
      BattleState.get, BattleState.set, calculateDamage, effProduct,
      typeEffectiveness, chartIce, mewtwoMoves, dragoniteMoves, psychicMove,
      shadowBall, iceBeam, flamethrower]
  · norm_num [effProduct, typeEffectiveness, chartIce]

/-- Every catalog species has base stats at least 1. -/
theorem db_base_pos : ∀ s ∈ POKEMON_DB, 1 ≤ s.baseStats.hp ∧
    1 ≤ s.baseStats.attack ∧ 1 ≤ s.baseStats.defense ∧ 1 ≤ s.baseStats.speed := by
  decide

/-- Every catalog move has non-negative power. -/
theorem db_moves_power : ∀ m ∈ MOVES_DB, 0 ≤ m.power := by decide

/-- A freshly created combatant satisfies the per-combatant invariant. -/
theorem goodMon_create (s : Species) (l : ℤ) (ms : List Move)
    (hs : s ∈ POKEMON_DB) (hl : 1 ≤ l) (hm : movesFromPool s ms) :
    goodMon (createBattlePokemon s l ms) := by
  obtain ⟨hhp, hatk, hdef, _⟩ := db_base_pos s hs
  refine ⟨hl, (calcStat_pos _ _ hatk hl).1, (calcStat_pos _ _ hdef hl).1,
    le_trans zero_le_one (calcStat_pos _ _ hhp hl).2, le_refl _, ?_⟩
  intro m hmem
  exact db_moves_power m ((hm m hmem).1)

/-- One attack step inside an active battle preserves the per-combatant
invariant (for random factors in the range the source draws from). -/
theorem inv_attackActive (b : BattleState) (an mn : String) (ar rf : ℚ)
    (hrf : 0 ≤ rf) (hInv : goodMon b.pokemon1 ∧ goodMon b.pokemon2) :
    goodMon ((attackActive b an mn ar rf).1).pokemon1 ∧
    goodMon ((attackActive b an mn ar rf).1).pokemon2 := by
  unfold attackActive
  cases hf : findAttacker b an with
  | none => exact hInv
  | some side =>
    simp only [hf]
    by_cases ht : b.currentTurn = side
    · rw [if_neg (not_not_intro ht)]
      cases hm : (b.get side).moves.find? (fun m => lowerStr m.name = lowerStr mn) with
      | none => exact hInv
      | some move =>
        simp only [hm]
        by_cases hacc : (move.accuracy : ℚ) ≤ ar
        · rw [if_pos hacc]
          exact hInv
        · rw [if_neg hacc]
          have hmem : move ∈ (b.get side).moves := List.mem_of_find?_eq_some hm
          have hgA : goodMon (b.get side) := by
            cases side with
            | p1 => exact hInv.1
            | p2 => exact hInv.2
          have hgD : goodMon (b.get side.flip) := by
            cases side with
            | p1 => exact hInv.2
            | p2 => exact hInv.1
          have hd0 : 0 ≤ calculateDamage (b.get side) (b.get side.flip) move rf :=
            calculateDamage_nonneg _ _ _ _ hgA.1 (le_trans zero_le_one hgA.2.1)
              (le_trans zero_le_one hgD.2.2.1) (hgA.2.2.2.2.2 move hmem) hrf
          have h0le : 0 ≤ max 0 ((b.get side.flip).stats.currentHp
              - calculateDamage (b.get side) (b.get side.flip) move rf) :=
            le_max_left 0 _
          have hle : max 0 ((b.get side.flip).stats.currentHp
              - calculateDamage (b.get side) (b.get side.flip) move rf)
              ≤ (b.get side.flip).stats.hp := by
            apply max_le (le_trans hgD.2.2.2.1 hgD.2.2.2.2.1)
            have hsub : (b.get side.flip).stats.currentHp
                - calculateDamage (b.get side) (b.get side.flip) move rf
                ≤ (b.get side.flip).stats.currentHp := by linarith
            exact le_trans hsub hgD.2.2.2.2.1
          by_cases h0 : max 0 ((b.get side.flip).stats.currentHp
              - calculateDamage (b.get side) (b.get side.flip) move rf) = 0
          · rw [if_pos h0]
            cases side with
            | p1 => exact ⟨hInv.1, hgD.1, hgD.2.1, hgD.2.2.1, h0le, hle, hgD.2.2.2.2.2⟩
            | p2 => exact ⟨⟨hgD.1, hgD.2.1, hgD.2.2.1, h0le, hle, hgD.2.2.2.2.2⟩, hInv.2⟩
          · rw [if_neg h0]
            cases side with
            | p1 => exact ⟨hInv.1, hgD.1, hgD.2.1, hgD.2.2.1, h0le, hle, hgD.2.2.2.2.2⟩
            | p2 => exact ⟨⟨hgD.1, hgD.2.1, hgD.2.2.1, h0le, hle, hgD.2.2.2.2.2⟩, hInv.2⟩
    · rw [if_pos (Ne.symm ht ∘ Eq.symm)]
      exact hInv

/-- One attack tool call preserves the invariant. -/
theorem inv_attack (ob : Option BattleState) (an mn : String) (ar rf : ℚ)
    (hrf : 0 ≤ rf) (hInv : Inv ob) : Inv ((attack ob an mn ar rf).1) := by
  cases ob with
  | none => trivial
  | some b =>
    by_cases hba : b.active = true
    · simp only [attack]
      rw [if_pos hba]
      exact inv_attackActive b an mn ar rf hrf hInv
    · simp only [attack]
      rw [if_neg hba]
      exact hInv

/-- Every reachable battle state satisfies the invariant. -/
theorem reachable_inv (ob : Option BattleState) (h : Reachable ob) : Inv ob := by
  induction h with
  | start s1 s2 l1 l2 m1 m2 hs1 hs2 hl1 hl2 hm1 hm2 =>
    exact ⟨goodMon_create s1 l1 m1 hs1 hl1 hm1, goodMon_create s2 l2 m2 hs2 hl2 hm2⟩
  | step b an mn ar rf hb har0 har1 hrf0 hrf1 ih =>
    exact inv_attack b an mn ar rf (le_trans (by norm_num) hrf0) ih

/-- C6: in every reachable battle state — right after `start_battle` and
after any sequence of attack calls with any in-range random draws — both
combatants satisfy `0 ≤ currentHealth ≤ maxHealth`. -/
theorem health_bounds (ob : Option BattleState) (hr : Reachable ob)
    (b : BattleState) (hb : ob = some b) :
    0 ≤ b.pokemon1.stats.currentHp ∧
    b.pokemon1.stats.currentHp ≤ b.pokemon1.stats.hp ∧
    0 ≤ b.pokemon2.stats.currentHp ∧
    b.pokemon2.stats.currentHp ≤ b.pokemon2.stats.hp := by
  have hinv := reachable_inv ob hr
  subst hb
  obtain ⟨h1, h2⟩ := hinv
  exact ⟨h1.2.2.2.1, h1.2.2.2.2.1, h2.2.2.2.1, h2.2.2.2.2.1⟩

/-- Witness for C6 at the freshly started Pikachu-vs-Squirtle battle. -/
theorem health_bounds_witness :
    0 ≤ battlePS.pokemon1.stats.currentHp ∧
    battlePS.pokemon1.stats.currentHp ≤ battlePS.pokemon1.stats.hp ∧
    0 ≤ battlePS.pokemon2.stats.currentHp ∧
    battlePS.pokemon2.stats.currentHp ≤ battlePS.pokemon2.stats.hp :=
  health_bounds (some battlePS)
    (Reachable.start pikachu squirtle 50 50 pikachuMoves squirtleMoves
      (by decide) (by decide) (by norm_num) (by norm_num)
      (by unfold movesFromPool; decide) (by unfold movesFromPool; decide))
    battlePS rfl

/-- C10: zero damage does not imply immunity — Bulbasaur's (lv 1) Vine Whip
against Dragonite (lv 100) hits with a strictly positive effectiveness
multiplier (0.25, dual-resisted) yet deals exactly 0 damage, the halving and
flooring driving the result below 1.  (The first call is Dragonite's
Earthquake missing, which hands the turn to Bulbasaur.) -/
theorem zero_damage_not_immune :
    (attack (attack (some battleDB) "Dragonite" "Earthquake" 95 (17/20)).1
        "Bulbasaur" "Vine Whip" 0 (17/20)).2
      = .hit .p2 0 (1/4) true none ∧
    min (effProduct PokemonType.grass [PokemonType.dragon, PokemonType.flying]) 2
      = 1/4 ∧
    (0 : ℚ) < 1/4 := by
  refine ⟨?_, ?_, by norm_num⟩
  · norm_num +decide [attack, attackActive, findAttacker, battleDB, startBattle,
      createBattlePokemon, calcStat, dragonite, bulbasaur, lowerStr, Side.flip,
      BattleState.get, BattleState.set, calculateDamage, effProduct,
      typeEffectiveness, chartGrass, dragoniteMoves, bulbasaurMoves, dragonClaw,
      flamethrower, iceBeam, earthquake, vineWhip, tackle, sludgeBomb]
  · norm_num [effProduct, typeEffectiveness, chartGrass]

end PokemonMCP
